import Mathlib

/-!
Verification of the webhook dispatch server
(`skills/activepieces-orchestrator/scripts/webhook-server.py`).

The server's POST pipeline is embedded shallowly:

* `Py` models the Python/JSON values that flow through the handler
  (the parsed body, the `data` mapping, messages, action results).
* Exceptions that the Python code can raise while handling a request
  (`AttributeError` from calling `.get`/`.upper`/`.replace`/`.startswith`
  on a value of the wrong type, `TypeError` from slicing a non-sequence)
  are modelled with `Except PyErr`.
* External subprocess invocations are modelled by an oracle structure
  `ExtWorld`; each handler also returns the list of spawn events it performed,
  so "no subprocess is spawned" and "the sanitized string is what is
  passed to the tool" are provable statements.
-/

/-- Python values as they occur in this program: JSON scalars, lists and
string-keyed dicts (dicts are association lists in document order). -/
inductive Py where
  | pnull
  | pbool (b : Bool)
  | pint (n : Int)
  | pstr (s : String)
  | plist (xs : List Py)
  | pdict (kvs : List (String × Py))

/-- Python truthiness (`if not command`, `if raw_message`): empty strings,
zero, `None`, `False` and empty containers are falsy. -/
def truthy : Py → Bool
  | .pnull => false
  | .pbool b => b
  | .pint n => n != 0
  | .pstr s => s != ""
  | .plist xs => !xs.isEmpty
  | .pdict kvs => !kvs.isEmpty

/-- Characters stripped by Python `str.strip()` with no argument: the
full CPython whitespace set (the code points on which `str.isspace()`
holds), including the ASCII separators 0x1c-0x1f, NEL 0x85, NBSP 0xa0
and the Unicode space characters. -/
def isPySpace (c : Char) : Bool :=
  ([0x09, 0x0a, 0x0b, 0x0c, 0x0d, 0x1c, 0x1d, 0x1e, 0x1f, 0x20,
    0x85, 0xa0, 0x1680,
    0x2000, 0x2001, 0x2002, 0x2003, 0x2004, 0x2005, 0x2006, 0x2007,
    0x2008, 0x2009, 0x200a, 0x2028, 0x2029, 0x202f, 0x205f, 0x3000] : List Nat).contains c.toNat

/-- Python `s.strip()`: drop leading and trailing whitespace. -/
def pyStrip (s : String) : String :=
  String.mk (((s.data.dropWhile isPySpace).reverse.dropWhile isPySpace).reverse)

/-- Python `s.replace(c, r)` for a single-character pattern `c` (the only
form the server uses): every occurrence of `c` becomes the string `r`. -/
def pyReplaceChar (s : String) (c : Char) (r : String) : String :=
  String.join (s.data.map (fun ch => if ch = c then r else String.singleton ch))

/-- The single-quote character, used as the replacement in the server's
AppleScript sanitization. -/
def squoteStr : String := String.singleton (Char.ofNat 39)

/-- The double-quote character. -/
def dquoteChar : Char := Char.ofNat 34

/-- The backslash character. -/
def bslashChar : Char := Char.ofNat 92

/-- Lowercase hexadecimal digit for a value below 16, as produced by
CPython's `\uXXXX` formatting. -/
def hexDigitChar (n : Nat) : Char :=
  if n < 10 then Char.ofNat (48 + n) else Char.ofNat (87 + n)

/-- Four-digit lowercase hexadecimal rendering of a code unit. -/
def hex4 (n : Nat) : String :=
  String.mk [hexDigitChar (n / 4096 % 16), hexDigitChar (n / 256 % 16),
             hexDigitChar (n / 16 % 16), hexDigitChar (n % 16)]

/-- A `\uXXXX` escape sequence. -/
def uEscape (n : Nat) : String :=
  String.singleton bslashChar ++ "u" ++ hex4 n

/-- JSON string escaping as done by `json.dumps` with its default
`ensure_ascii=True`: quote and backslash escaped, the shorthand escapes
`\b \t \n \f \r`, every other character outside printable ASCII
(0x20-0x7e) rendered as `\uXXXX`, with a surrogate pair for code points
above 0xffff. -/
def jsonEscapeChar (c : Char) : String :=
  if c = dquoteChar then String.singleton bslashChar ++ String.singleton dquoteChar
  else if c = bslashChar then String.singleton bslashChar ++ String.singleton bslashChar
  else if c = '\n' then String.singleton bslashChar ++ "n"
  else if c = '\t' then String.singleton bslashChar ++ "t"
  else if c = '\r' then String.singleton bslashChar ++ "r"
  else if c = '\x08' then String.singleton bslashChar ++ "b"
  else if c = '\x0c' then String.singleton bslashChar ++ "f"
  else if 0x20 ≤ c.toNat ∧ c.toNat ≤ 0x7e then String.singleton c
  else if c.toNat < 0x10000 then uEscape c.toNat
  else
    uEscape (0xd800 + (c.toNat - 0x10000) / 0x400) ++ uEscape (0xdc00 + (c.toNat - 0x10000) % 0x400)

/-- Escape every character of a string for JSON output. -/
def jsonEscape (s : String) : String :=
  String.join (s.data.map jsonEscapeChar)

mutual
/-- Python `json.dumps` with default separators, as used for the
fallback serialization of a mapping-valued message. -/
def jsonDumps : Py → String
  | .pnull => "null"
  | .pbool true => "true"
  | .pbool false => "false"
  | .pint n => toString n
  | .pstr s => String.singleton dquoteChar ++ jsonEscape s ++ String.singleton dquoteChar
  | .plist xs => "[" ++ jsonDumpsList xs ++ "]"
  | .pdict kvs => "\x7b" ++ jsonDumpsDict kvs ++ "\x7d"

/-- Comma-separated serialization of a JSON array's elements. -/
def jsonDumpsList : List Py → String
  | [] => ""
  | [x] => jsonDumps x
  | x :: y :: xs => jsonDumps x ++ ", " ++ jsonDumpsList (y :: xs)

/-- Comma-separated serialization of a JSON object's entries. -/
def jsonDumpsDict : List (String × Py) → String
  | [] => ""
  | [(k, v)] => String.singleton dquoteChar ++ jsonEscape k ++ String.singleton dquoteChar ++ ": " ++ jsonDumps v
  | (k, v) :: y :: xs =>
      String.singleton dquoteChar ++ jsonEscape k ++ String.singleton dquoteChar ++ ": " ++ jsonDumps v
        ++ ", " ++ jsonDumpsDict (y :: xs)
end

mutual
/-- Python `str()` of a value (`f"{sound}"`, `str(raw_message)`): scalars
render as in Python; containers render via `repr` of their elements. -/
def pyStr : Py → String
  | .pnull => "None"
  | .pbool true => "True"
  | .pbool false => "False"
  | .pint n => toString n
  | .pstr s => s
  | .plist xs => "[" ++ pyReprList xs ++ "]"
  | .pdict kvs => "\x7b" ++ pyReprDict kvs ++ "\x7d"

/-- Python `repr()` of a value: like `str()` except strings are quoted
(inner escaping of quote characters is not modelled — no claim depends
on it). -/
def pyRepr : Py → String
  | .pstr s => squoteStr ++ s ++ squoteStr
  | .pnull => "None"
  | .pbool true => "True"
  | .pbool false => "False"
  | .pint n => toString n
  | .plist xs => "[" ++ pyReprList xs ++ "]"
  | .pdict kvs => "\x7b" ++ pyReprDict kvs ++ "\x7d"

/-- Comma-separated `repr` of list elements. -/
def pyReprList : List Py → String
  | [] => ""
  | [x] => pyRepr x
  | x :: y :: xs => pyRepr x ++ ", " ++ pyReprList (y :: xs)

/-- Comma-separated `repr` of dict entries. -/
def pyReprDict : List (String × Py) → String
  | [] => ""
  | [(k, v)] => squoteStr ++ k ++ squoteStr ++ ": " ++ pyRepr v
  | (k, v) :: y :: xs => squoteStr ++ k ++ squoteStr ++ ": " ++ pyRepr v ++ ", " ++ pyReprDict (y :: xs)
end

/-- Python exceptions the request-handling code can raise. -/
inductive PyErr where
  | attributeError (attr : String)
  | typeError (what : String)

/-- A subprocess spawn event: either an argv-list invocation
(`subprocess.run([...])`) or a shell-string invocation
(`subprocess.run(cmd, shell=True)`). -/
inductive Spawn where
  | argv (args : List String)
  | shell (cmd : String)

/-- Outcome of `subprocess.run(command, shell=True, capture_output=True,
text=True, timeout=30)` in `action_execute`: normal completion with an
exit code and captured output, a `TimeoutExpired`, or any other
exception (caught by the handler's generic `except Exception`). -/
inductive RunOutcome where
  | completed (returncode : Int) (stdout stderr : String)
  | timedOut
  | raised (msg : String)

/-- Oracle for the external process boundary. `runCheck argv` models
`subprocess.run(argv, check=True, capture_output=True)`: `.ok ()` when
the tool exits zero, `.error e` (with `e` the text of the
`CalledProcessError`) when it exits non-zero. `runShell cmd` models the
shell invocation made by `action_execute`. -/
structure ExtWorld where
  runCheck : List String → Except String Unit
  runShell : String → RunOutcome

/-- The normalized envelope derived from a request body (webhook-server.py
lines 35-57). `action` and `message` are kept as Python values because the
code can put non-string values there. -/
structure Envelope where
  action : Py
  message : Py
  data : Py

/-- Python `kvs.get(k, dflt)` on a dict known to be a dict: the first
binding of `k`, else the default. -/
def dictGet (kvs : List (String × Py)) (k : String) (dflt : Py) : Py :=
  (kvs.lookup k).getD dflt

/-- Python `data.get(k, dflt)` on an arbitrary value: raises
`AttributeError` unless the value is a dict. -/
def pyGetD (data : Py) (k : String) (dflt : Py) : Except PyErr Py :=
  match data with
  | .pdict kvs => .ok (dictGet kvs k dflt)
  | _ => .error (.attributeError "get")

/-- Look up a field of an action-result dict (`none` when the result is
not a dict or lacks the key). -/
def getField (r : Py) (k : String) : Option Py :=
  match r with
  | .pdict kvs => kvs.lookup k
  | _ => none

/-- Python `v.replace(c, r)`: raises `AttributeError` unless `v` is a
string. -/
def strReplace (v : Py) (c : Char) (r : String) : Except PyErr String :=
  match v with
  | .pstr s => .ok (pyReplaceChar s c r)
  | _ => .error (.attributeError "replace")

/-- Envelope construction, webhook-server.py lines 35-57. `parse` stands
for `json.loads`: `none` when parsing raises `JSONDecodeError`/`ValueError`.
The code runs `json.loads(body) if body else {}`, so the empty body never
reaches the parser; a parse failure with a whitespace-only body fails the
`body.strip()` test on line 43 and falls into the JSON-path `else` branch
with `data = {}`. On the JSON path, calling `.get` on a non-dict parse
result raises `AttributeError`. -/
def computeEnvelope (parse : String → Option Py) (body : String) : Except PyErr Envelope :=
  let pr : Py × Bool :=
    if body = "" then (.pdict [], true)
    else
      match parse body with
      | some d => (d, true)
      | none => (.pdict [], false)
  if pr.2 = false ∧ pyStrip body ≠ "" then
    .ok ⟨.pstr "notify", .pstr (pyStrip body),
         .pdict [("title", .pstr "Email AI Analysis"), ("message", .pstr (pyStrip body))]⟩
  else
    match pr.1 with
    | .pdict kvs =>
      let rawMessage := dictGet kvs "message" (dictGet kvs "text" (dictGet kvs "raw" (.pstr "Webhook received")))
      let message : Py :=
        match rawMessage with
        | .pdict m => dictGet m "result" (dictGet m "text" (dictGet m "content" (.pstr (jsonDumps (.pdict m)))))
        | .pstr s => if pyStrip s ≠ "" then .pstr s else .pstr "No message content"
        | v => if truthy v then .pstr (pyStr v) else .pstr "No message content"
      .ok ⟨dictGet kvs "action" (.pstr "notify"), message, .pdict kvs⟩
    | _ => .error (.attributeError "get")

/-- The AppleScript line built by `action_notify` (line 118). -/
def notifyScript (cleanMsg cleanTitle soundText : String) : String :=
  "display notification " ++ String.singleton dquoteChar ++ cleanMsg ++ String.singleton dquoteChar
    ++ " with title " ++ String.singleton dquoteChar ++ cleanTitle ++ String.singleton dquoteChar
    ++ " sound name " ++ String.singleton dquoteChar ++ soundText ++ String.singleton dquoteChar

/-- Sanitization applied to the message by `action_notify` (line 115):
`message.replace(quote, squote).replace(backslash, empty).replace(newline, space)`. -/
def cleanNotifyMsg (s : String) : String :=
  pyReplaceChar (pyReplaceChar (pyReplaceChar s dquoteChar squoteStr) bslashChar "") '\n' " "

/-- `action_notify` (lines 109-124): macOS notification via `osascript`.
On `CalledProcessError` the result is `{success: False, error: str(e)}`
with no `action` field. -/
def actionNotify (ext : ExtWorld) (message : Py) (data : Py) : Except PyErr (Py × List Spawn) :=
  match pyGetD data "title" (.pstr "ActivePieces") with
  | .error e => .error e
  | .ok title =>
    match pyGetD data "sound" (.pstr "Glass") with
    | .error e => .error e
    | .ok sound =>
      match message with
      | .pstr m =>
        match strReplace title dquoteChar squoteStr with
        | .error e => .error e
        | .ok cleanTitle =>
          let script := notifyScript (cleanNotifyMsg m) cleanTitle (pyStr sound)
          match ext.runCheck ["osascript", "-e", script] with
          | .ok _ =>
            .ok (.pdict [("success", .pbool true), ("action", .pstr "notify"), ("message", message)],
                 [.argv ["osascript", "-e", script]])
          | .error e =>
            .ok (.pdict [("success", .pbool false), ("error", .pstr e)],
                 [.argv ["osascript", "-e", script]])
      | _ => .error (.attributeError "replace")

/-- The AppleScript line built by `action_sound` (line 129). -/
def soundScript (soundText : String) : String :=
  "do shell script " ++ String.singleton dquoteChar
    ++ "afplay /System/Library/Sounds/" ++ soundText ++ ".aiff" ++ String.singleton dquoteChar

/-- `action_sound` (lines 126-137): play a sound via `osascript`; on
`CalledProcessError` retry with `afplay` directly, ignoring its result;
both paths return the same success dict. -/
def actionSound (ext : ExtWorld) (message : Py) (data : Py) : Except PyErr (Py × List Spawn) :=
  match pyGetD data "sound" (.pstr "Glass") with
  | .error e => .error e
  | .ok sound =>
    let script := soundScript (pyStr sound)
    let res : Py := .pdict [("success", .pbool true), ("action", .pstr "sound"), ("sound", sound)]
    match ext.runCheck ["osascript", "-e", script] with
    | .ok _ => .ok (res, [.argv ["osascript", "-e", script]])
    | .error _ =>
      .ok (res, [.argv ["osascript", "-e", script],
                 .argv ["afplay", "/System/Library/Sounds/" ++ pyStr sound ++ ".aiff"]])

/-- `action_say` (lines 139-148): text-to-speech. The message is
sanitized with `replace(quote, squote)` only; the voice value is passed
raw in the argv list, so `subprocess.run` raises `TypeError` on a
non-string voice (not caught: the handler only catches
`CalledProcessError`). -/
def actionSay (ext : ExtWorld) (message : Py) (data : Py) : Except PyErr (Py × List Spawn) :=
  match pyGetD data "voice" (.pstr "Samantha") with
  | .error e => .error e
  | .ok voice =>
    match strReplace message dquoteChar squoteStr with
    | .error e => .error e
    | .ok cleanMsg =>
      match voice with
      | .pstr v =>
        match ext.runCheck ["say", "-v", v, cleanMsg] with
        | .ok _ =>
          .ok (.pdict [("success", .pbool true), ("action", .pstr "say"), ("message", message)],
               [.argv ["say", "-v", v, cleanMsg]])
        | .error e =>
          .ok (.pdict [("success", .pbool false), ("error", .pstr e)],
               [.argv ["say", "-v", v, cleanMsg]])
      | _ => .error (.typeError "argv")

/-- `action_log` (lines 150-153): print and report success; no
subprocess is spawned. -/
def actionLog (message : Py) (data : Py) : Except PyErr (Py × List Spawn) :=
  .ok (.pdict [("success", .pbool true), ("action", .pstr "log"), ("message", message)], [])

/-- The allow-list of command starts checked by `action_execute`
(line 162). -/
def allowlist : List String := ["open ", "say ", "afplay ", "osascript "]

/-- Python `c.startswith(p)`. -/
def startsWithStr (c p : String) : Bool :=
  List.isPrefixOf p.data c.data

/-- Whether `any(command.startswith(p) for p in allowed_prefixes)` holds
(line 163). -/
def allowedCmd (c : String) : Bool :=
  allowlist.any (fun p => startsWithStr c p)

/-- `action_execute` (lines 155-177): reject a missing/falsy command,
reject a command outside the allow-list without spawning anything,
otherwise run it through the shell with a 30-second timeout.
`command.startswith` raises `AttributeError` on a truthy non-string
command. -/
def actionExecute (ext : ExtWorld) (message : Py) (data : Py) : Except PyErr (Py × List Spawn) :=
  match pyGetD data "command" (.pstr "") with
  | .error e => .error e
  | .ok command =>
    if truthy command = false then
      .ok (.pdict [("success", .pbool false), ("error", .pstr "No command provided")], [])
    else
      match command with
      | .pstr c =>
        if allowedCmd c = false then
          .ok (.pdict [("success", .pbool false), ("error", .pstr "Command not allowed")], [])
        else
          match ext.runShell c with
          | .completed rc out err =>
            .ok (.pdict [("success", .pbool (rc == 0)), ("action", .pstr "execute"),
                         ("stdout", .pstr out), ("stderr", .pstr err)], [.shell c])
          | .timedOut =>
            .ok (.pdict [("success", .pbool false), ("error", .pstr "Command timed out")], [.shell c])
          | .raised msg =>
            .ok (.pdict [("success", .pbool false), ("error", .pstr msg)], [.shell c])
      | _ => .error (.attributeError "startswith")

/-- The action names registered in the dispatch dict (lines 97-104). -/
def registeredActions : List String :=
  ["notify", "notification", "sound", "say", "log", "execute"]

/-- `handle_action` (lines 95-107): string-keyed dispatch with
`actions.get(action, self.action_notify)` falling back to the notify
handler for any unregistered name. -/
def handleAction (ext : ExtWorld) (action : String) (message : Py) (data : Py) :
    Except PyErr (Py × List Spawn) :=
  if action = "notify" then actionNotify ext message data
  else if action = "notification" then actionNotify ext message data
  else if action = "sound" then actionSound ext message data
  else if action = "say" then actionSay ext message data
  else if action = "log" then actionLog message data
  else if action = "execute" then actionExecute ext message data
  else actionNotify ext message data

/-- `do_POST` (lines 27-71) after the body has been read and decoded:
build the envelope, evaluate the log f-string of line 61 (in which
`action.upper()` raises `AttributeError` on a non-string action and
`message[:100]` raises `TypeError` on a non-sliceable message), then
dispatch. An `.error` value means the exception propagates out of
`do_POST` into the HTTP server machinery. -/
def doPost (ext : ExtWorld) (parse : String → Option Py) (body : String) :
    Except PyErr (Py × List Spawn) :=
  match computeEnvelope parse body with
  | .error e => .error e
  | .ok env =>
    match env.action with
    | .pstr a =>
      match env.message with
      | .pstr _ => handleAction ext a env.message env.data
      | .plist _ => handleAction ext a env.message env.data
      | _ => .error (.typeError "slice")
    | _ => .error (.attributeError "upper")

/-- A sample external world in which every tool call succeeds (exit
code 0, empty output); used to instantiate witnesses. -/
def sampleExtWorld : ExtWorld where
  runCheck := fun _ => .ok ()
  runShell := fun _ => .completed 0 "" ""

/-- A sample external world in which every checked tool call fails and
every shell command times out; used to instantiate witnesses. -/
def failExtWorld : ExtWorld where
  runCheck := fun _ => .error "boom"
  runShell := fun _ => .timedOut

/-- First-present-wins key selection over a dict, as the spec words it:
the value of the first listed key that is present. -/
def firstPresent (kvs : List (String × Py)) : List String → Option Py
  | [] => none
  | k :: ks =>
    match kvs.lookup k with
    | some v => some v
    | none => firstPresent kvs ks

/-- Modelled from the spec wording for the JSON path: the raw message is
chosen first-present-wins among `message`, `text`, `raw`, defaulting to
`"Webhook received"`. -/
def specRawMessage (kvs : List (String × Py)) : Py :=
  (firstPresent kvs ["message", "text", "raw"]).getD (.pstr "Webhook received")

/-- Modelled from the spec wording: resolve the raw message value on the
cases the spec describes. For a mapping, first-present-wins among
`result`, `text`, `content` with its JSON serialization as default; for
an empty/blank string, substitute `"No message content"`. Other value
types are outside the spec's wording and are returned unchanged. -/
def specMessage (kvs : List (String × Py)) : Py :=
  match specRawMessage kvs with
  | .pdict m => (firstPresent m ["result", "text", "content"]).getD (.pstr (jsonDumps (.pdict m)))
  | .pstr s => if pyStrip s = "" then .pstr "No message content" else .pstr s
  | v => v

/-- Modelled from the spec wording: `action` is `data.action`, defaulting
to `"notify"` when absent. -/
def specAction (kvs : List (String × Py)) : Py :=
  dictGet kvs "action" (.pstr "notify")

/-- Lowercasing of a string, for stating case-sensitivity. -/
def lowerStr (s : String) : String :=
  String.mk (s.data.map Char.toLower)

/-- The nested-default form of `data.get` chains used by the code equals
the first-present-wins form used by the spec, for three keys. -/
theorem dictGet_chain3 (kvs : List (String × Py)) (k1 k2 k3 : String) (d : Py) :
    dictGet kvs k1 (dictGet kvs k2 (dictGet kvs k3 d)) =
      (firstPresent kvs [k1, k2, k3]).getD d := by
  unfold dictGet
  cases h1 : kvs.lookup k1 <;> cases h2 : kvs.lookup k2 <;> cases h3 : kvs.lookup k3 <;>
    simp [firstPresent, h1, h2, h3]

/-- Dispatch falls through to the notify handler for any action name not
in the registry. -/
theorem handleAction_default (ext : ExtWorld) (message data : Py) (a : String)
    (ha : a ∉ registeredActions) :
    handleAction ext a message data = actionNotify ext message data := by
  simp only [registeredActions, List.mem_cons, List.not_mem_nil, or_false, not_or] at ha
  obtain ⟨h1, h2, h3, h4, h5, h6⟩ := ha
  simp [handleAction, h1, h2, h3, h4, h5, h6]

/-- The amended result-shape property: a boolean `success` field is
always present, and a string `action` field is present whenever
`success` is `true`. -/
def resultShape (r : Py) : Prop :=
  (∃ b, getField r "success" = some (.pbool b)) ∧
    (getField r "success" = some (.pbool true) → ∃ s, getField r "action" = some (.pstr s))

/-- Any dict starting with a boolean `success` and a string `action`
satisfies the result shape. -/
theorem resultShape_cons (b : Bool) (a : String) (rest : List (String × Py)) :
    resultShape (.pdict (("success", .pbool b) :: ("action", .pstr a) :: rest)) :=
  ⟨⟨b, rfl⟩, fun _ => ⟨a, rfl⟩⟩

/-- The bare failure dict `{success: False, error: e}` satisfies the
result shape (vacuously for the `action` part). -/
theorem resultShape_fail (e : String) :
    resultShape (.pdict [("success", .pbool false), ("error", .pstr e)]) := by
  refine ⟨⟨false, rfl⟩, fun hc => ?_⟩
  have hc' : some (Py.pbool false) = some (Py.pbool true) := hc
  simp at hc'

/-- Every result the notify handler returns satisfies the result shape. -/
theorem resultShape_notify (ext : ExtWorld) (m d r : Py) (tr : List Spawn)
    (h : actionNotify ext m d = .ok (r, tr)) : resultShape r := by
  unfold actionNotify at h
  try dsimp only at h
  repeat' split at h
  all_goals try exact Except.noConfusion h
  all_goals injection h with h'
  all_goals injection h' with hr htr
  all_goals subst hr
  · exact resultShape_cons _ _ _
  · exact resultShape_fail _

/-- Every result the sound handler returns satisfies the result shape. -/
theorem resultShape_sound (ext : ExtWorld) (m d r : Py) (tr : List Spawn)
    (h : actionSound ext m d = .ok (r, tr)) : resultShape r := by
  unfold actionSound at h
  try dsimp only at h
  repeat' split at h
  all_goals try exact Except.noConfusion h
  all_goals injection h with h'
  all_goals injection h' with hr htr
  all_goals subst hr
  all_goals exact resultShape_cons _ _ _

/-- Every result the say handler returns satisfies the result shape. -/
theorem resultShape_say (ext : ExtWorld) (m d r : Py) (tr : List Spawn)
    (h : actionSay ext m d = .ok (r, tr)) : resultShape r := by
  unfold actionSay at h
  try dsimp only at h
  repeat' split at h
  all_goals try exact Except.noConfusion h
  all_goals injection h with h'
  all_goals injection h' with hr htr
  all_goals subst hr
  · exact resultShape_cons _ _ _
  · exact resultShape_fail _

/-- Every result the log handler returns satisfies the result shape. -/
theorem resultShape_log (m d r : Py) (tr : List Spawn)
    (h : actionLog m d = .ok (r, tr)) : resultShape r := by
  injection h with h'
  injection h' with hr htr
  subst hr
  exact resultShape_cons _ _ _

/-- Every result the execute handler returns satisfies the result
shape. -/
theorem resultShape_execute (ext : ExtWorld) (m d r : Py) (tr : List Spawn)
    (h : actionExecute ext m d = .ok (r, tr)) : resultShape r := by
  unfold actionExecute at h
  try dsimp only at h
  repeat' split at h
  all_goals try exact Except.noConfusion h
  all_goals injection h with h'
  all_goals injection h' with hr htr
  all_goals subst hr
  all_goals first
    | exact resultShape_cons _ _ _
    | exact resultShape_fail _

/-- C1: a POST dispatched to the execute action returns
`{success: False, error: "No command provided"}` when `data.command` is
absent or the empty string (both make `data.get('command', '')` yield
the empty string), and returns `{success: False, error: "Command not
allowed"}` with no subprocess spawned when the command string does not
start with one of the four allowed starts — in particular
`command = "rm -rf /"` is always rejected this way without execution. -/
theorem execute_allowlist_rejects (ext : ExtWorld) (message : Py) (kvs : List (String × Py)) :
    (dictGet kvs "command" (.pstr "") = .pstr "" →
      actionExecute ext message (.pdict kvs) =
        .ok (.pdict [("success", .pbool false), ("error", .pstr "No command provided")], [])) ∧
    (∀ c : String, dictGet kvs "command" (.pstr "") = .pstr c → c ≠ "" → allowedCmd c = false →
      actionExecute ext message (.pdict kvs) =
        .ok (.pdict [("success", .pbool false), ("error", .pstr "Command not allowed")], [])) := by
  constructor
  · intro hc
    simp [actionExecute, pyGetD, hc, truthy]
  · intro c hc hne hal
    simp [actionExecute, pyGetD, hc, truthy, hne, hal]

/-- Witness for C1: with no command key the handler reports "No command
provided"; with `command = "rm -rf /"` it reports "Command not allowed"
and spawns nothing. -/
theorem execute_allowlist_rejects_witness :
    actionExecute sampleExtWorld (.pstr "m") (.pdict []) =
      .ok (.pdict [("success", .pbool false), ("error", .pstr "No command provided")], []) ∧
    actionExecute sampleExtWorld (.pstr "m") (.pdict [("command", .pstr "rm -rf /")]) =
      .ok (.pdict [("success", .pbool false), ("error", .pstr "Command not allowed")], []) :=
  ⟨(execute_allowlist_rejects sampleExtWorld (.pstr "m") []).1 rfl,
   (execute_allowlist_rejects sampleExtWorld (.pstr "m") [("command", .pstr "rm -rf /")]).2
     "rm -rf /" rfl (by decide) (by decide)⟩

/-- C2 (bug exhibit): a JSON body whose `action` value is the number 5
makes the request handler raise `AttributeError` (line 61 evaluates
`action.upper()` on an int), so the exception reaches the HTTP transport
layer instead of being embedded in a JSON result. -/
theorem post_nonstring_action_raises (ext : ExtWorld) (parse : String → Option Py)
    (h : parse "x" = some (.pdict [("action", .pint 5)])) :
    doPost ext parse "x" = .error (.attributeError "upper") := by
  have henv : computeEnvelope parse "x" =
      .ok ⟨.pint 5, .pstr "Webhook received", .pdict [("action", .pint 5)]⟩ := by
    unfold computeEnvelope
    rw [h]
    rfl
  unfold doPost
  rw [henv]

/-- Witness for C2's bug exhibit at a concrete parse function. -/
theorem post_nonstring_action_raises_witness :
    doPost sampleExtWorld (fun _ => some (.pdict [("action", .pint 5)])) "x" =
      .error (.attributeError "upper") :=
  post_nonstring_action_raises sampleExtWorld (fun _ => some (.pdict [("action", .pint 5)])) rfl

/-- C3: every action name outside the registry dispatches to the notify
handler, and in particular the unknown action "frobnicate" yields the
same result as "notify" for any message, data and external world. -/
theorem unknown_action_falls_back (ext : ExtWorld) (message data : Py) :
    (∀ a : String, a ∉ registeredActions →
        handleAction ext a message data = actionNotify ext message data) ∧
    handleAction ext "frobnicate" message data = handleAction ext "notify" message data := by
  refine ⟨fun a ha => handleAction_default ext message data a ha, ?_⟩
  rfl

/-- Witness for C3 at a concrete unknown action name. -/
theorem unknown_action_falls_back_witness :
    handleAction sampleExtWorld "frobnicate" (.pstr "m") (.pdict []) =
      actionNotify sampleExtWorld (.pstr "m") (.pdict []) :=
  (unknown_action_falls_back sampleExtWorld (.pstr "m") (.pdict [])).1 "frobnicate" (by decide)

/-- C8 (counterexample): the execute handler's "No command provided"
result has no `action` field at all, refuting the claim that every
Action Result contains a string `action` field. -/
theorem result_action_counterexample :
    actionExecute sampleExtWorld (.pstr "m") (.pdict []) =
      .ok (.pdict [("success", .pbool false), ("error", .pstr "No command provided")], []) ∧
    getField (.pdict [("success", .pbool false), ("error", .pstr "No command provided")])
      "action" = none :=
  ⟨rfl, rfl⟩

/-- C8 (amended): every Action Result produced by any action handler
contains a boolean `success` field, and every result whose `success` is
`true` also contains a string `action` field; the failure branches of
notify, say and execute return only `{success, error}` with no `action`
field. -/
theorem result_shape_amended (ext : ExtWorld) (a : String) (message data r : Py)
    (tr : List Spawn) (h : handleAction ext a message data = .ok (r, tr)) :
    resultShape r := by
  unfold handleAction at h
  repeat' split at h
  · exact resultShape_notify _ _ _ _ _ h
  · exact resultShape_notify _ _ _ _ _ h
  · exact resultShape_sound _ _ _ _ _ h
  · exact resultShape_say _ _ _ _ _ h
  · exact resultShape_log _ _ _ _ h
  · exact resultShape_execute _ _ _ _ _ h
  · exact resultShape_notify _ _ _ _ _ h

/-- Witness for C8's amended theorem at the log action. -/
theorem result_shape_amended_witness :
    resultShape (.pdict [("success", .pbool true), ("action", .pstr "log"),
                         ("message", .pstr "x")]) :=
  result_shape_amended sampleExtWorld "log" (.pstr "x") (.pdict [])
    (.pdict [("success", .pbool true), ("action", .pstr "log"), ("message", .pstr "x")]) [] rfl

/-- C4 (counterexample): for the whitespace-only body `"   "` (on which
JSON parsing fails), the envelope is not the plain-text interpretation:
the message is `"Webhook received"` and the data dict is empty, because
line 43's `body.strip()` test routes blank bodies into the JSON-path
branch with `data = {}`. -/
theorem plaintext_blank_body_counterexample :
    computeEnvelope (fun _ => none) "   " =
      .ok ⟨.pstr "notify", .pstr "Webhook received", .pdict []⟩ ∧
    computeEnvelope (fun _ => none) "   " ≠
      .ok ⟨.pstr "notify", .pstr (pyStrip "   "),
           .pdict [("title", .pstr "Email AI Analysis"),
                   ("message", .pstr (pyStrip "   "))]⟩ := by
  refine ⟨rfl, fun hcl => ?_⟩
  rw [show computeEnvelope (fun _ => none) "   " =
        (.ok ⟨.pstr "notify", .pstr "Webhook received", .pdict []⟩ : Except PyErr Envelope)
      from rfl] at hcl
  simp at hcl

/-- C4 (amended): a body that fails JSON parsing is given the plain-text
interpretation only when its stripped text is non-empty; the empty body
and whitespace-only unparseable bodies instead take the JSON path with
`data = {}`, yielding the envelope `action = "notify"`,
`message = "Webhook received"`, `data = {}`. -/
theorem plaintext_path_amended (parse : String → Option Py) (body : String) :
    (body ≠ "" → parse body = none → pyStrip body ≠ "" →
      computeEnvelope parse body =
        .ok ⟨.pstr "notify", .pstr (pyStrip body),
             .pdict [("title", .pstr "Email AI Analysis"),
                     ("message", .pstr (pyStrip body))]⟩) ∧
    (body = "" ∨ (parse body = none ∧ pyStrip body = "") →
      computeEnvelope parse body =
        .ok ⟨.pstr "notify", .pstr "Webhook received", .pdict []⟩) := by
  constructor
  · intro hb hp hs
    simp [computeEnvelope, hb, hp, hs]
  · rintro (hb | ⟨hp, hs⟩)
    · subst hb
      rfl
    · by_cases hb : body = ""
      · subst hb
        rfl
      · simp [computeEnvelope, hb, hp, hs, dictGet,
              (by decide : pyStrip "Webhook received" ≠ "")]

/-- Witness for C4's amended theorem: a non-blank unparseable body takes
the plain-text path, a blank unparseable body does not. -/
theorem plaintext_path_amended_witness :
    computeEnvelope (fun _ => none) " hello " =
      .ok ⟨.pstr "notify", .pstr (pyStrip " hello "),
           .pdict [("title", .pstr "Email AI Analysis"),
                   ("message", .pstr (pyStrip " hello "))]⟩ ∧
    computeEnvelope (fun _ => none) "" =
      .ok ⟨.pstr "notify", .pstr "Webhook received", .pdict []⟩ :=
  ⟨(plaintext_path_amended (fun _ => none) " hello ").1 (by decide) rfl (by decide),
   (plaintext_path_amended (fun _ => none) "").2 (Or.inl rfl)⟩

/-- C5: for every non-empty body parsed to a JSON object, the envelope
matches the spec's extraction: message first-present-wins among
`message`/`text`/`raw` (default "Webhook received"), a mapping value
resolved first-present-wins among `result`/`text`/`content` (default:
its JSON serialization), a blank string replaced by
"No message content", and action defaulting to "notify". The hypothesis
restricts the raw message to the value shapes the claim describes
(a mapping or a string; absent keys give the string default). -/
theorem json_extraction_matches_spec (parse : String → Option Py) (body : String)
    (kvs : List (String × Py)) (hb : body ≠ "") (hp : parse body = some (.pdict kvs))
    (hraw : (∃ m, specRawMessage kvs = .pdict m) ∨ (∃ s, specRawMessage kvs = .pstr s)) :
    computeEnvelope parse body = .ok ⟨specAction kvs, specMessage kvs, .pdict kvs⟩ := by
  have hchain : dictGet kvs "message"
      (dictGet kvs "text" (dictGet kvs "raw" (.pstr "Webhook received"))) = specRawMessage kvs := by
    rw [dictGet_chain3]
    rfl
  unfold computeEnvelope
  rw [if_neg hb, hp]
  dsimp only
  rw [if_neg (fun h => Bool.noConfusion h.1)]
  rw [hchain]
  rcases hraw with ⟨m, hm⟩ | ⟨s, hs⟩
  · rw [hm]
    simp [specMessage, hm, dictGet_chain3, specAction]
  · rw [hs]
    by_cases hblank : pyStrip s = ""
    · simp [specMessage, hs, hblank, specAction]
    · simp [specMessage, hs, hblank, specAction]

/-- Witness for C5 at the claim's two examples: body parsed to
`{"text": "hi"}` resolves the message to "hi"; body parsed to
`{"message": {"result": "r"}}` resolves it to "r". -/
theorem json_extraction_matches_spec_witness :
    computeEnvelope (fun _ => some (.pdict [("text", .pstr "hi")])) "b" =
      .ok ⟨.pstr "notify", .pstr "hi", .pdict [("text", .pstr "hi")]⟩ ∧
    computeEnvelope (fun _ => some (.pdict [("message", .pdict [("result", .pstr "r")])])) "b" =
      .ok ⟨.pstr "notify", .pstr "r", .pdict [("message", .pdict [("result", .pstr "r")])]⟩ :=
  ⟨json_extraction_matches_spec (fun _ => some (.pdict [("text", .pstr "hi")])) "b"
      [("text", .pstr "hi")] (by decide) rfl (Or.inr ⟨"hi", rfl⟩),
   json_extraction_matches_spec (fun _ => some (.pdict [("message", .pdict [("result", .pstr "r")])]))
      "b" [("message", .pdict [("result", .pstr "r")])] (by decide) rfl
      (Or.inl ⟨[("result", .pstr "r")], rfl⟩)⟩

/-- C6: when the command passes the allow-list check, a timed-out run
yields `{success: False, error: "Command timed out"}` and a completed
run yields `{success: returncode == 0, action: "execute", stdout,
stderr}` with the captured output; in both cases exactly the one shell
spawn happens. -/
theorem execute_run_outcomes (ext : ExtWorld) (message : Py) (kvs : List (String × Py))
    (c : String) (hc : dictGet kvs "command" (.pstr "") = .pstr c) (hne : c ≠ "")
    (hal : allowedCmd c = true) :
    (ext.runShell c = .timedOut →
      actionExecute ext message (.pdict kvs) =
        .ok (.pdict [("success", .pbool false), ("error", .pstr "Command timed out")],
             [.shell c])) ∧
    (∀ (rc : Int) (out err : String), ext.runShell c = .completed rc out err →
      actionExecute ext message (.pdict kvs) =
        .ok (.pdict [("success", .pbool (rc == 0)), ("action", .pstr "execute"),
                     ("stdout", .pstr out), ("stderr", .pstr err)], [.shell c])) := by
  constructor
  · intro hrun
    simp [actionExecute, pyGetD, hc, truthy, hne, hal, hrun]
  · intro rc out err hrun
    simp [actionExecute, pyGetD, hc, truthy, hne, hal, hrun]

/-- Witness for C6: `open /tmp` under a timing-out world and under a
world where it exits 0. -/
theorem execute_run_outcomes_witness :
    actionExecute failExtWorld (.pstr "m") (.pdict [("command", .pstr "open /tmp")]) =
      .ok (.pdict [("success", .pbool false), ("error", .pstr "Command timed out")],
           [.shell "open /tmp"]) ∧
    actionExecute sampleExtWorld (.pstr "m") (.pdict [("command", .pstr "open /tmp")]) =
      .ok (.pdict [("success", .pbool true), ("action", .pstr "execute"),
                   ("stdout", .pstr ""), ("stderr", .pstr "")], [.shell "open /tmp"]) :=
  ⟨(execute_run_outcomes failExtWorld (.pstr "m") [("command", .pstr "open /tmp")] "open /tmp"
      rfl (by decide) (by decide)).1 rfl,
   (execute_run_outcomes sampleExtWorld (.pstr "m") [("command", .pstr "open /tmp")] "open /tmp"
      rfl (by decide) (by decide)).2 0 "" "" rfl⟩

/-- C7: the sound handler returns `{success: True, action: "sound",
sound: <name>}` whether or not the primary `osascript` call exits
non-zero; on failure it retries via `afplay` without checking the
result, and no failure is propagated. -/
theorem sound_always_success (ext : ExtWorld) (message : Py) (kvs : List (String × Py)) :
    (ext.runCheck ["osascript", "-e", soundScript (pyStr (dictGet kvs "sound" (.pstr "Glass")))]
        = .ok () →
      actionSound ext message (.pdict kvs) =
        .ok (.pdict [("success", .pbool true), ("action", .pstr "sound"),
                     ("sound", dictGet kvs "sound" (.pstr "Glass"))],
             [.argv ["osascript", "-e",
                soundScript (pyStr (dictGet kvs "sound" (.pstr "Glass")))]])) ∧
    (∀ e : String,
      ext.runCheck ["osascript", "-e", soundScript (pyStr (dictGet kvs "sound" (.pstr "Glass")))]
          = .error e →
      actionSound ext message (.pdict kvs) =
        .ok (.pdict [("success", .pbool true), ("action", .pstr "sound"),
                     ("sound", dictGet kvs "sound" (.pstr "Glass"))],
             [.argv ["osascript", "-e",
                soundScript (pyStr (dictGet kvs "sound" (.pstr "Glass")))],
              .argv ["afplay",
                "/System/Library/Sounds/" ++ pyStr (dictGet kvs "sound" (.pstr "Glass"))
                  ++ ".aiff"]])) := by
  constructor
  · intro h
    simp [actionSound, pyGetD, h]
  · intro e h
    simp [actionSound, pyGetD, h]

/-- Witness for C7: same success dict under a succeeding world and under
a failing world, with the `afplay` retry appearing only in the second
trace. -/
theorem sound_always_success_witness :
    actionSound sampleExtWorld (.pstr "m") (.pdict []) =
      .ok (.pdict [("success", .pbool true), ("action", .pstr "sound"), ("sound", .pstr "Glass")],
           [.argv ["osascript", "-e", soundScript "Glass"]]) ∧
    actionSound failExtWorld (.pstr "m") (.pdict []) =
      .ok (.pdict [("success", .pbool true), ("action", .pstr "sound"), ("sound", .pstr "Glass")],
           [.argv ["osascript", "-e", soundScript "Glass"],
            .argv ["afplay", "/System/Library/Sounds/Glass.aiff"]]) :=
  ⟨(sound_always_success sampleExtWorld (.pstr "m") []).1 rfl,
   (sound_always_success failExtWorld (.pstr "m") []).2 "boom" rfl⟩

/-- C9: on success the notify and say handlers return the original
message verbatim in the result's `message` field, while the string
handed to the external tool is the sanitized one (quotes, and for
notify also backslashes and newlines, rewritten). -/
theorem message_returned_verbatim (ext : ExtWorld) (kvs : List (String × Py)) (s t v : String)
    (ht : dictGet kvs "title" (.pstr "ActivePieces") = .pstr t)
    (hv : dictGet kvs "voice" (.pstr "Samantha") = .pstr v) :
    (ext.runCheck ["osascript", "-e",
        notifyScript (cleanNotifyMsg s) (pyReplaceChar t dquoteChar squoteStr)
          (pyStr (dictGet kvs "sound" (.pstr "Glass")))] = .ok () →
      actionNotify ext (.pstr s) (.pdict kvs) =
        .ok (.pdict [("success", .pbool true), ("action", .pstr "notify"),
                     ("message", .pstr s)],
             [.argv ["osascript", "-e",
                notifyScript (cleanNotifyMsg s) (pyReplaceChar t dquoteChar squoteStr)
                  (pyStr (dictGet kvs "sound" (.pstr "Glass")))]])) ∧
    (ext.runCheck ["say", "-v", v, pyReplaceChar s dquoteChar squoteStr] = .ok () →
      actionSay ext (.pstr s) (.pdict kvs) =
        .ok (.pdict [("success", .pbool true), ("action", .pstr "say"),
                     ("message", .pstr s)],
             [.argv ["say", "-v", v, pyReplaceChar s dquoteChar squoteStr]])) := by
  constructor
  · intro h
    simp [actionNotify, pyGetD, ht, strReplace, h]
  · intro h
    simp [actionSay, pyGetD, hv, strReplace, h]

/-- Witness for C9: a message containing a double quote comes back
verbatim while the tool receives the sanitized form. -/
theorem message_returned_verbatim_witness :
    actionNotify sampleExtWorld (.pstr "a\"b") (.pdict []) =
      .ok (.pdict [("success", .pbool true), ("action", .pstr "notify"),
                   ("message", .pstr "a\"b")],
           [.argv ["osascript", "-e",
              notifyScript (cleanNotifyMsg "a\"b") "ActivePieces" "Glass"]]) ∧
    actionSay sampleExtWorld (.pstr "a\"b") (.pdict []) =
      .ok (.pdict [("success", .pbool true), ("action", .pstr "say"),
                   ("message", .pstr "a\"b")],
           [.argv ["say", "-v", "Samantha", pyReplaceChar "a\"b" dquoteChar squoteStr]]) :=
  ⟨(message_returned_verbatim sampleExtWorld [] "a\"b" "ActivePieces" "Samantha" rfl rfl).1 rfl,
   (message_returned_verbatim sampleExtWorld [] "a\"b" "ActivePieces" "Samantha" rfl rfl).2 rfl⟩

/-- C10: dispatch is case-sensitive: an action string that differs from
a registered name only by letter case is not registered, so it falls
back to the notify handler. -/
theorem dispatch_case_sensitive (ext : ExtWorld) (message data : Py) (s r : String)
    (hr : r ∈ registeredActions) (hne : s ≠ r) (hcase : lowerStr s = lowerStr r) :
    handleAction ext s message data = actionNotify ext message data := by
  have hs : s ∉ registeredActions := by
    intro hsmem
    simp only [registeredActions, List.mem_cons, List.not_mem_nil, or_false] at hsmem hr
    rcases hsmem with h1 | h1 | h1 | h1 | h1 | h1 <;> subst h1 <;>
      rcases hr with h2 | h2 | h2 | h2 | h2 | h2 <;> subst h2 <;>
        first
          | exact hne rfl
          | exact absurd hcase (by decide)
  exact handleAction_default ext message data s hs

/-- Witness for C10 at the claim's examples "SOUND" and "Log". -/
theorem dispatch_case_sensitive_witness :
    handleAction sampleExtWorld "SOUND" (.pstr "m") (.pdict []) =
      actionNotify sampleExtWorld (.pstr "m") (.pdict []) ∧
    handleAction sampleExtWorld "Log" (.pstr "m") (.pdict []) =
      actionNotify sampleExtWorld (.pstr "m") (.pdict []) :=
  ⟨dispatch_case_sensitive sampleExtWorld (.pstr "m") (.pdict []) "SOUND" "sound"
      (by decide) (by decide) (by decide),
   dispatch_case_sensitive sampleExtWorld (.pstr "m") (.pdict []) "Log" "log"
      (by decide) (by decide) (by decide)⟩
